import Mathlib

/-!
# HiveBounty — verification of the claim/release workflow

A shallow embedding of the HiveBounty sources:

* `src/contracts/bounty.contract.ts` — the Bounty State Machine
  (`createBounty`, `claimBounty`, `verifyAndPayBounty`);
* `src/services/escrow.service.ts` — the escrow HTTP client
  (`releaseEscrowFunds`);
* `server/server.js` — the escrow service (`verifyApiKey`,
  `GET /api/balance`, `POST /api/release`).

External collaborators that live outside the embedded sources — the
GitHub verification utilities (`src/utils/github.ts`), the Hive
Keychain browser extension (`window.hive_keychain`), the dhive ledger
client and `sendHiveTokens` — are modelled as oracle inputs: the
functions under verification only branch on their results, so each is
a parameter (a function- or value-typed field of an environment
record) rather than a definition.

JavaScript values are modelled as follows: a number is a decimal
fixed-point `JsNum` (`mant / 10 ^ scale` — every amount this system
handles is a terminating decimal), a possibly-`NaN` number is
`Option JsNum` (with `none` for `NaN`, whose comparisons are all
false), a possibly-absent string is `Option String`, and `parseFloat`
/ the `||` and `??` operators are embedded as `jsParseFloat`,
`jsOrString` and `Option.getD`.  Each state-changing operation additionally
returns the chronological list of outbound calls (network / signer /
ledger) it performed, so ordering and short-circuiting properties can
be stated about what was and was not invoked.
-/

/-- JavaScript truthiness of a possibly-absent string: `undefined`,
`null` and `""` are falsy, every other string is truthy. -/
def jsTruthy : Option String → Bool
  | none => false
  | some s => s != ""

/-- JavaScript `a || b` for a possibly-absent string `a` with a string
default `b`: the default is used when `a` is absent or empty. -/
def jsOrString : Option String → String → String
  | none, d => d
  | some s, d => if s = "" then d else s

/-- A JavaScript number as this system uses them: a decimal
fixed-point value `mant / 10 ^ scale`.  Every amount handled by the
sources is a terminating decimal (currency amounts with three
fractional digits), so this represents them exactly; two `JsNum`s
denote the same number iff they agree after cross-multiplying by the
powers of ten. -/
structure JsNum where
  mant : Int
  scale : Nat
deriving DecidableEq, Repr

/-- Numeric `<` on decimal fixed-point values. -/
def JsNum.blt (a b : JsNum) : Bool :=
  decide (a.mant * (10 : Int) ^ b.scale < b.mant * (10 : Int) ^ a.scale)

/-- Numeric `≤` on decimal fixed-point values. -/
def JsNum.ble (a b : JsNum) : Bool :=
  decide (a.mant * (10 : Int) ^ b.scale ≤ b.mant * (10 : Int) ^ a.scale)

/-- Subtraction of decimal fixed-point values (common scale). -/
def JsNum.sub (a b : JsNum) : JsNum :=
  ⟨a.mant * (10 : Int) ^ b.scale - b.mant * (10 : Int) ^ a.scale, a.scale + b.scale⟩

/-- The rational a `JsNum` denotes, for stating numeric facts. -/
def JsNum.toRat (a : JsNum) : Rat :=
  (a.mant : Rat) / (10 : Rat) ^ a.scale

/-- JavaScript `<` on possibly-`NaN` numbers: any comparison with
`NaN` is false. -/
def jsLt : Option JsNum → Option JsNum → Bool
  | some a, some b => a.blt b
  | _, _ => false

/-- Value of a list of decimal digit characters. -/
def digitsVal (cs : List Char) : Nat :=
  cs.foldl (fun a c => a * 10 + (c.toNat - 48)) 0

/-- Model of JavaScript `parseFloat`: skip leading whitespace, read an
optional sign, then the longest prefix of the form `digits[.digits]`,
ignoring anything after it (so `parseFloat("100.000 HIVE") = 100`).
`none` models `NaN` (no digits found).  Exponent notation and
`Infinity`, which never occur in this system's inputs, are not
modelled. -/
def jsParseFloat (s : String) : Option JsNum :=
  let cs := s.toList.dropWhile (fun c => c == ' ' || c == '\t' || c == '\n')
  let signed : Bool × List Char :=
    match cs with
    | '-' :: rest => (true, rest)
    | '+' :: rest => (false, rest)
    | _ => (false, cs)
  let ip := signed.2.takeWhile Char.isDigit
  let rest := signed.2.dropWhile Char.isDigit
  let fp : List Char :=
    match rest with
    | '.' :: r => r.takeWhile Char.isDigit
    | _ => []
  if ip.isEmpty && fp.isEmpty then none
  else
    let mag : Int := (digitsVal ip * 10 ^ fp.length + digitsVal fp : Nat)
    some ⟨if signed.1 then -mag else mag, fp.length⟩

/-- Drop trailing `'0'` characters. -/
def dropTrailingZeros (cs : List Char) : List Char :=
  (cs.reverse.dropWhile (fun c => c == '0')).reverse

/-- Decimal rendering of a `JsNum`, modelling how a JavaScript
template literal renders such a number: sign, integer part, and the
fractional digits with trailing zeros trimmed (none for integers). -/
def jsNumToString (q : JsNum) : String :=
  let p := 10 ^ q.scale
  let m := q.mant.natAbs
  let ip := m / p
  let fr := m % p
  let sgn := if q.mant < 0 then "-" else ""
  let fracCs := dropTrailingZeros
    (List.replicate (q.scale - (toString fr).length) '0' ++ (toString fr).toList)
  sgn ++ toString ip ++ (if fracCs.isEmpty then "" else "." ++ String.mk fracCs)

/-- Rendering of a possibly-`NaN` number in a template literal. -/
def jsOptNumToString : Option JsNum → String
  | none => "NaN"
  | some q => jsNumToString q

/-! ## Contract-side data model (`src/types`, `bounty.contract.ts`) -/

/-- `TransactionResponse` (`src/types/hive.types.ts`): the uniform
result of every state-changing contract operation. -/
structure TransactionResponse where
  success : Bool
  message : String
  txId : Option String := none
deriving DecidableEq, Repr

/-- The response the Hive Keychain extension passes to a
`requestCustomJson` callback: `success`, `result?.id`, `error`. -/
structure KeychainResponse where
  success : Bool
  resultId : Option String := none
  error : Option String := none
deriving DecidableEq, Repr

/-- Parsed GitHub issue/PR URL: the `{owner, repo, number}` structure
returned by `parseGitHubUrl` (`src/utils/github.ts`, external). -/
structure RepoRef where
  owner : String
  repo : String
  number : Nat
deriving DecidableEq, Repr

/-- Result of `getPullRequestDetails` (external): merge flag, the PR
author's login when resolvable, and the merge commit SHA when any. -/
structure PRDetails where
  merged : Bool
  user : Option String
  mergeCommitSha : Option String
deriving DecidableEq, Repr

/-- Oracle for the GitHub verification utilities of
`src/utils/github.ts`, which are external collaborators of the
embedded contract: `claimBounty` only branches on their results. -/
structure GitHubOracle where
  parseGitHubUrl : String → Option RepoRef
  isIssueClosed : String → String → Nat → Bool
  getPullRequestDetails : String → String → Nat → PRDetails
  isPRLinkedToIssue : String → String → Nat → Nat → Bool

/-- `BountyClaim` (`src/types/bounty.types.ts`): the claim record
submitted for attestation by `claimBounty`. -/
structure BountyClaim where
  bountyId : String
  solver : String
  pullRequestUrl : String
  mergeCommitHash : String
  timestamp : String
  githubUsername : String
deriving DecidableEq, Repr

/-- Outbound calls `claimBounty` can make, in chronological order of
the trace it returns. -/
inductive ClaimCall
  | isIssueClosedCall (owner repo : String) (number : Nat)
  | getPullRequestDetailsCall (owner repo : String) (number : Nat)
  | isPRLinkedToIssueCall (owner repo : String) (prNumber issueNumber : Nat)
  | requestCustomJsonClaim (data : BountyClaim)
deriving DecidableEq, Repr

/-- `BountyContract.claimBounty` (`bounty.contract.ts` lines 130-249).
Arguments mirror the source: `keychain` is the response the Hive
Keychain extension would give to the claim's `requestCustomJson`
(`none` when `window.hive_keychain` is absent), `username` is the
contract's user, `ts` the `new Date().toISOString()` timestamp,
`githubLink` is `bountyData.githubLink`.  The first component is
`Except.ok` for the `TransactionResponse` the returned promise
resolves with, and `Except.error` for an unhandled rejection: at step
7 the source reads `window.hive_keychain.requestCustomJson` inside a
`new Promise` executor and returns that promise *without awaiting
it*, so when the extension is absent the executor's `TypeError`
rejects the returned promise and the surrounding `try/catch` (which
only guards the synchronous part of the function body) never observes
it.  The second component is the chronological list of outbound calls
performed. -/
def claimBounty (gh : GitHubOracle) (keychain : Option KeychainResponse)
    (username ts bountyId githubLink pullRequestUrl : String) :
    Except String TransactionResponse × List ClaimCall :=
  -- 1. Parse GitHub URLs
  match gh.parseGitHubUrl githubLink, gh.parseGitHubUrl pullRequestUrl with
  | none, _ => (Except.ok ⟨false, "Invalid GitHub URLs", none⟩, [])
  | some _, none => (Except.ok ⟨false, "Invalid GitHub URLs", none⟩, [])
  | some issueUrlInfo, some prUrlInfo =>
    -- 2. Check if issue and PR are in the same repo
    if issueUrlInfo.owner ≠ prUrlInfo.owner ∨ issueUrlInfo.repo ≠ prUrlInfo.repo then
      (Except.ok ⟨false, "Pull request must be in the same repository as the issue", none⟩, [])
    else
      -- 3. Check if issue is closed
      let isIssueResolved := gh.isIssueClosed issueUrlInfo.owner issueUrlInfo.repo issueUrlInfo.number
      let trace3 := [ClaimCall.isIssueClosedCall issueUrlInfo.owner issueUrlInfo.repo issueUrlInfo.number]
      if isIssueResolved = false then
        (Except.ok ⟨false, "The issue must be closed before claiming the bounty", none⟩, trace3)
      else
        -- 4. Check if PR is merged and get PR creator
        let prDetails := gh.getPullRequestDetails prUrlInfo.owner prUrlInfo.repo prUrlInfo.number
        let trace4 := trace3 ++ [ClaimCall.getPullRequestDetailsCall prUrlInfo.owner prUrlInfo.repo prUrlInfo.number]
        if prDetails.merged = false then
          (Except.ok ⟨false, "The pull request must be merged before claiming the bounty", none⟩, trace4)
        else
          match prDetails.user with
          | none => (Except.ok ⟨false, "Could not verify pull request creator", none⟩, trace4)
          | some login =>
            -- 5. Check if PR is linked to the issue
            let isPRLinked := gh.isPRLinkedToIssue issueUrlInfo.owner issueUrlInfo.repo prUrlInfo.number issueUrlInfo.number
            let trace5 := trace4 ++ [ClaimCall.isPRLinkedToIssueCall issueUrlInfo.owner issueUrlInfo.repo prUrlInfo.number issueUrlInfo.number]
            if isPRLinked = false then
              (Except.ok ⟨false, "The pull request must reference the issue it resolves", none⟩, trace5)
            else
              -- 6. Create claim data
              let claimData : BountyClaim :=
                { bountyId := bountyId
                  solver := username
                  pullRequestUrl := pullRequestUrl
                  mergeCommitHash := jsOrString prDetails.mergeCommitSha ""
                  timestamp := ts
                  githubUsername := login }
              -- 7. Submit claim to blockchain (promise returned without await)
              match keychain with
              | none => (Except.error "TypeError: window.hive_keychain is undefined", trace5)
              | some response =>
                if response.success then
                  (Except.ok ⟨true, "Claim submitted successfully. The bounty creator will review your claim.",
                      some (response.resultId.getD "unknown")⟩,
                   trace5 ++ [ClaimCall.requestCustomJsonClaim claimData])
                else
                  (Except.ok ⟨false, jsOrString response.error "Failed to submit claim", none⟩,
                   trace5 ++ [ClaimCall.requestCustomJsonClaim claimData])

/-! ## `createBounty` (`bounty.contract.ts` lines 22-127) -/

/-- A Hive account record as returned by
`client.database.getAccounts`; only the `balance` string is read. -/
structure HiveAccount where
  balance : String
deriving DecidableEq, Repr

/-- Outbound side-effecting calls `createBounty` can make:
`requestCustomJsonCreate account` is the create attestation signed by
`account`, `sendHiveTokensCall sender recipient amount memo` the
funding transfer. -/
inductive CreateCall
  | requestCustomJsonCreate (account : String)
  | sendHiveTokensCall (sender recipient : String) (amount : JsNum) (memo : String)
deriving DecidableEq, Repr

/-- Environment of one `createBounty` run: `contractAccount` is the
configured `CONTRACT_ACCOUNT`, `contractAccounts` / `userAccounts`
the ledger's answers to the two `getAccounts` queries, `keychain` the
extension's response to the create `requestCustomJson` (`none` when
`window.hive_keychain` is absent), and `transferResult` what
`sendHiveTokens` would return. -/
structure CreateEnv where
  contractAccount : String
  contractAccounts : List HiveAccount
  userAccounts : List HiveAccount
  keychain : Option KeychainResponse
  transferResult : TransactionResponse

/-- The insufficient-balance message of `createBounty` (line 57). -/
def insufficientBalanceMessage (userBalance bountyAmount : Option JsNum) : String :=
  "Insufficient balance. You have " ++ jsOptNumToString userBalance ++
    " HIVE but the bounty requires " ++ jsOptNumToString bountyAmount ++ " HIVE"

/-- `BountyContract.createBounty` (`bounty.contract.ts` lines 22-127).
`prizePool` is `bountyData.prizePool`; the source compares
`parseFloat(String(account.balance))` with
`parseFloat(prizePool.toString())` (the identity on a number), and
only reaches the keychain after the balance guard.  A thrown error
from `sendHiveTokens` produces the same partial-failure response as a
returned failure, so `transferResult` covers both.  Returns the
response the promise resolves with, and the chronological list of
side-effecting calls performed. -/
def createBounty (env : CreateEnv) (username : String) (prizePool : JsNum) :
    TransactionResponse × List CreateCall :=
  match env.contractAccounts with
  | [] => (⟨false, "Contract account " ++ env.contractAccount ++ " does not exist", none⟩, [])
  | _ :: _ =>
    match env.userAccounts with
    | [] => (⟨false, "Could not fetch account information", none⟩, [])
    | account :: _ =>
      let userBalance := jsParseFloat account.balance
      let bountyAmount : Option JsNum := some prizePool
      if jsLt userBalance bountyAmount then
        (⟨false, insufficientBalanceMessage userBalance bountyAmount, none⟩, [])
      else
        match env.keychain with
        | none => (⟨false, "Hive Keychain extension not found", none⟩, [])
        | some response =>
          if response.success then
            let transferCalls :=
              [CreateCall.requestCustomJsonCreate username,
               CreateCall.sendHiveTokensCall username env.contractAccount prizePool
                 ("bounty-create-" ++ response.resultId.getD "unknown")]
            if env.transferResult.success then
              (⟨true, "Bounty created and funded successfully",
                  some (response.resultId.getD "unknown")⟩,
               transferCalls)
            else
              (⟨false, "Bounty created but funding failed: " ++ env.transferResult.message ++
                    ". Please try funding manually.",
                  some (response.resultId.getD "unknown")⟩,
               transferCalls)
          else
            (⟨false, jsOrString response.error "Failed to create bounty", none⟩,
             [CreateCall.requestCustomJsonCreate username])

/-! ## `releaseEscrowFunds` and `verifyAndPayBounty` -/

/-- Body of the escrow service's `/release` HTTP response as consumed
by `releaseEscrowFunds` (`escrow.service.ts` lines 22-26). -/
structure ReleaseHttpResponse where
  success : Bool
  message : Option String := none
  transaction_id : Option String := none
deriving DecidableEq, Repr

/-- `releaseEscrowFunds` (`escrow.service.ts` lines 51-92), as a
function of the HTTP outcome: `Except.ok` is a 2xx response body,
`Except.error m` an axios rejection (network failure or non-2xx
status) whose derived message is
`err.response?.data?.message || err.message || ...` — for a non-2xx
status with a JSON body this is the body's `message`.  The request
parameters (`to`, `amount`, `bountyId`, `requester`, `memo`) only
form the HTTP body and do not influence the mapping.  The function
never throws: both branches return a `TransactionResponse`, and
`txId` is set only on success. -/
def releaseEscrowFunds (outcome : Except String ReleaseHttpResponse) : TransactionResponse :=
  match outcome with
  | Except.ok r =>
    if r.success then
      ⟨true, jsOrString r.message "Funds released successfully", r.transaction_id⟩
    else
      ⟨false, jsOrString r.message "Failed to release funds", none⟩
  | Except.error m => ⟨false, jsOrString (some m) "Failed to release funds", none⟩

/-- Outbound side-effecting calls `verifyAndPayBounty` can make:
the approval attestation `requestCustomJson(account, ...)` with its
payload fields, and `releaseEscrowFunds(recipient, amount, bountyId,
requester, memo)`. -/
inductive PayCall
  | requestCustomJsonApprove (account bountyId solver amount : String)
  | releaseEscrowFundsCall (recipient amount bountyId requester memo : String)
deriving DecidableEq, Repr

/-- Environment of one `verifyAndPayBounty` run: the extension's
response to the approval `requestCustomJson` (`none` when
`window.hive_keychain` is absent) and the escrow service HTTP
outcome that `releaseEscrowFunds` would observe. -/
structure PayEnv where
  keychain : Option KeychainResponse
  escrowOutcome : Except String ReleaseHttpResponse

/-- Placeholder for the host runtime's `TypeError` message raised by
reading `requestCustomJson` off an undefined `window.hive_keychain`
(the exact wording is host-specific; nothing proved here depends on
it). -/
def keychainUndefinedMessage : String := "window.hive_keychain is undefined"

/-- `BountyContract.verifyAndPayBounty` (`bounty.contract.ts` lines
252-310).  Phase 1 records the approval attestation: the promise
wrapping `requestCustomJson` is *awaited inside the `try`*, so an
absent extension is caught and surfaces as the catch branch's
`Error processing payment: ...` response (unlike `claimBounty`).  If
the approval result is not a success it is returned unchanged and
phase 2 — `releaseEscrowFunds` — is never invoked; otherwise the
value of `releaseEscrowFunds` is returned as-is. -/
def verifyAndPayBounty (env : PayEnv) (username bountyId solver bountyAmount : String) :
    TransactionResponse × List PayCall :=
  match env.keychain with
  | none =>
    (⟨false, "Error processing payment: " ++ keychainUndefinedMessage, none⟩, [])
  | some response =>
    let approvalResult : TransactionResponse :=
      if response.success then
        ⟨true, "Solution approval recorded on blockchain", some (response.resultId.getD "unknown")⟩
      else
        ⟨false, jsOrString response.error "Failed to record approval", none⟩
    if approvalResult.success then
      (releaseEscrowFunds env.escrowOutcome,
       [PayCall.requestCustomJsonApprove username bountyId solver bountyAmount,
        PayCall.releaseEscrowFundsCall solver bountyAmount bountyId username
          ("Bounty payment for " ++ bountyId)])
    else
      (approvalResult, [PayCall.requestCustomJsonApprove username bountyId solver bountyAmount])

/-! ## The escrow service (`server/server.js`) -/

/-- The escrow account record as read by the server: the `balance`
and `hbd_balance` strings of the dhive account object. -/
structure EscrowAccount where
  balance : String
  hbd_balance : String
deriving DecidableEq, Repr

/-- Server configuration: `ESCROW_ACCOUNT` (`none` for an unset or
empty environment variable), the loaded `ACTIVE_KEY` (`none` when the
variable is unset or `PrivateKey.from` rejected it — lines 16-29),
and the shared-secret `API_KEY`. -/
structure ServerConfig where
  escrowAccount : Option String
  activeKey : Option String
  apiKey : String

/-- Upstream calls a request handler can make against the ledger. -/
inductive LedgerCall
  | getAccounts
  | broadcastTransfer
deriving DecidableEq, Repr

/-- Environment of one request: the outcome of
`client.database.getAccounts([ESCROW_ACCOUNT])` (`Except.error` = the
call threw) and of `client.broadcast.sendOperations` (`Except.ok` =
the broadcast result id). -/
structure ServerEnv where
  accounts : Except String (List EscrowAccount)
  broadcast : Except String String

/-- A JSON HTTP response of the escrow service. -/
structure HttpResponse where
  status : Nat
  success : Bool
  message : Option String := none
  balance : Option String := none
  hbd_balance : Option String := none
  transaction_id : Option String := none
deriving DecidableEq, Repr

/-- The 401 response of `verifyApiKey` (line 40). -/
def unauthorizedResponse : HttpResponse :=
  ⟨401, false, some "Unauthorized", none, none, none⟩

/-- `verifyApiKey` middleware (lines 35-42): the request proceeds iff
the `x-api-key` header is present, truthy and equal to `API_KEY`. -/
def verifyApiKey (apiKey : String) (provided : Option String) : Bool :=
  match provided with
  | none => false
  | some k => (k != "") && (k == apiKey)

/-- Handler of `GET /api/balance` (lines 54-82), after the middleware
let the request through.  Returns the response and the ledger calls
made. -/
def balanceHandler (cfg : ServerConfig) (env : ServerEnv) : HttpResponse × List LedgerCall :=
  match cfg.escrowAccount with
  | none => (⟨500, false, some "Escrow account not configured", none, none, none⟩, [])
  | some _ =>
    match env.accounts with
    | Except.error m => (⟨500, false, some m, none, none, none⟩, [LedgerCall.getAccounts])
    | Except.ok [] => (⟨404, false, some "Account not found", none, none, none⟩, [LedgerCall.getAccounts])
    | Except.ok (a :: _) =>
      (⟨200, true, none, some a.balance, some a.hbd_balance, none⟩, [LedgerCall.getAccounts])

/-- The `GET /api/balance` route: `verifyApiKey` then the handler. -/
def getBalanceRoute (cfg : ServerConfig) (env : ServerEnv) (headerKey : Option String) :
    HttpResponse × List LedgerCall :=
  if verifyApiKey cfg.apiKey headerKey then balanceHandler cfg env
  else (unauthorizedResponse, [])

/-- Body of a `POST /api/release` request; fields may be absent. -/
structure ReleaseRequest where
  «to» : Option String
  amount : Option String
  memo : Option String
  bountyId : Option String
  requester : Option String
deriving DecidableEq, Repr

/-- Outcome of the amount/balance validation of the release handler
(lines 121-136): the `isNaN(requestedAmount) || requestedAmount <= 0`
check runs first, then `balance < requestedAmount` (false when the
balance parsed as `NaN`, as in JavaScript). -/
inductive ReleaseDecision
  | invalidAmount
  | insufficient
  | proceed
deriving DecidableEq, Repr

/-- The release handler's validation of the parsed amount against the
parsed balance, in source order. -/
def releaseDecision (balance requested : Option JsNum) : ReleaseDecision :=
  match requested with
  | none => ReleaseDecision.invalidAmount
  | some r =>
    if r.ble ⟨0, 0⟩ then ReleaseDecision.invalidAmount
    else
      match balance with
      | none => ReleaseDecision.proceed
      | some b => if b.blt r then ReleaseDecision.insufficient else ReleaseDecision.proceed

/-- The insufficient-balance message of the release handler (line
134). -/
def insufficientEscrowMessage (balance requested : JsNum) : String :=
  "Insufficient balance in escrow account. Available: " ++ jsNumToString balance ++
    " HIVE, Requested: " ++ jsNumToString requested ++ " HIVE"

/-- Handler of `POST /api/release` (lines 85-163), after the
middleware let the request through: required-parameter check, escrow
account and key configuration checks, balance fetch, amount and
balance validation, then the transfer broadcast.  The `try/catch`
turns a thrown upstream error into a 500 JSON response, so the
handler never rethrows; the trace records the ledger calls made. -/
def releaseHandler (cfg : ServerConfig) (env : ServerEnv) (req : ReleaseRequest) :
    HttpResponse × List LedgerCall :=
  if !(jsTruthy req.«to» && jsTruthy req.amount && jsTruthy req.bountyId && jsTruthy req.requester) then
    (⟨400, false, some "Missing required parameters", none, none, none⟩, [])
  else
    match cfg.escrowAccount with
    | none => (⟨500, false, some "Escrow account not properly configured", none, none, none⟩, [])
    | some _ =>
      match cfg.activeKey with
      | none => (⟨500, false, some "Private key not configured or invalid", none, none, none⟩, [])
      | some _ =>
        match env.accounts with
        | Except.error m => (⟨500, false, some m, none, none, none⟩, [LedgerCall.getAccounts])
        | Except.ok [] =>
          (⟨404, false, some "Escrow account not found", none, none, none⟩, [LedgerCall.getAccounts])
        | Except.ok (acct :: _) =>
          let balance := jsParseFloat acct.balance
          let requestedAmount := jsParseFloat (req.amount.getD "")
          match releaseDecision balance requestedAmount with
          | ReleaseDecision.invalidAmount =>
            (⟨400, false, some "Invalid amount", none, none, none⟩, [LedgerCall.getAccounts])
          | ReleaseDecision.insufficient =>
            (⟨400, false,
                some (insufficientEscrowMessage (balance.getD ⟨0, 0⟩) (requestedAmount.getD ⟨0, 0⟩)),
                none, none, none⟩,
             [LedgerCall.getAccounts])
          | ReleaseDecision.proceed =>
            match env.broadcast with
            | Except.ok txid =>
              (⟨200, true,
                  some ("Successfully sent " ++ req.amount.getD "" ++ " HIVE to @" ++ req.«to».getD ""),
                  none, none, some txid⟩,
               [LedgerCall.getAccounts, LedgerCall.broadcastTransfer])
            | Except.error m =>
              (⟨500, false, some m, none, none, none⟩,
               [LedgerCall.getAccounts, LedgerCall.broadcastTransfer])

/-- The `POST /api/release` route: `verifyApiKey` then the handler. -/
def postReleaseRoute (cfg : ServerConfig) (env : ServerEnv) (headerKey : Option String)
    (req : ReleaseRequest) : HttpResponse × List LedgerCall :=
  if verifyApiKey cfg.apiKey headerKey then releaseHandler cfg env req
  else (unauthorizedResponse, [])

/-! ## Interleaving model of two concurrent release requests

The release handler suspends at the `await` of `getAccounts` and at
the `await` of the broadcast, with no lock between the balance read
and the transfer that the check guards; two in-flight requests may
therefore interleave those suspension points arbitrarily.  Each
request is modelled by its two steps: `read` (the `getAccounts`
snapshot) and `act` (the amount/balance validation of
`releaseDecision` against the snapshot, followed — on `proceed` — by
the broadcast, which debits the on-chain balance). -/

/-- Shared state of two in-flight release requests for amounts
`amt1`, `amt2`: the on-chain escrow balance, each request's balance
snapshot (once read), and each request's response (`some true` =
`success:true`, once sent). -/
structure RaceState where
  ledger : JsNum
  snap1 : Option JsNum
  snap2 : Option JsNum
  res1 : Option Bool
  res2 : Option Bool
deriving DecidableEq, Repr

/-- Scheduler events for the two-request interleaving. -/
inductive RaceEvent
  | read1
  | read2
  | act1
  | act2
deriving DecidableEq, Repr

/-- One scheduler step.  `read` snapshots the current balance (the
handler's `getAccounts`); `act` runs `releaseDecision` on the
snapshot exactly as the handler does and, on `proceed`, broadcasts
the transfer, debiting the ledger.  An `act` before its `read` is a
no-op (the handler cannot validate before its fetch returns). -/
def raceStep (amt1 amt2 : JsNum) (s : RaceState) : RaceEvent → RaceState
  | RaceEvent.read1 => { s with snap1 := some s.ledger }
  | RaceEvent.read2 => { s with snap2 := some s.ledger }
  | RaceEvent.act1 =>
    match s.snap1 with
    | none => s
    | some b =>
      match releaseDecision (some b) (some amt1) with
      | ReleaseDecision.proceed => { s with res1 := some true, ledger := s.ledger.sub amt1 }
      | _ => { s with res1 := some false }
  | RaceEvent.act2 =>
    match s.snap2 with
    | none => s
    | some b =>
      match releaseDecision (some b) (some amt2) with
      | ReleaseDecision.proceed => { s with res2 := some true, ledger := s.ledger.sub amt2 }
      | _ => { s with res2 := some false }

/-- Run a schedule of events from a starting state. -/
def raceRun (amt1 amt2 : JsNum) (s : RaceState) (sched : List RaceEvent) : RaceState :=
  sched.foldl (raceStep amt1 amt2) s

/-! ## Concrete fixtures used by witnesses and counterexamples -/

/-- Oracle for the scenario of an open issue `#5` in `owner/repo`
with a merged, linked PR `#7`: every guard after issue-closure would
pass, but the issue is still open. -/
def ghOpenIssue : GitHubOracle :=
  { parseGitHubUrl := fun u =>
      if u = "https://github.com/owner/repo/issues/5" then some ⟨"owner", "repo", 5⟩
      else if u = "https://github.com/owner/repo/pull/7" then some ⟨"owner", "repo", 7⟩
      else none
    isIssueClosed := fun _ _ _ => false
    getPullRequestDetails := fun _ _ _ => ⟨true, some "devuser", some "abc123"⟩
    isPRLinkedToIssue := fun _ _ _ _ => true }

/-- Oracle under which every `claimBounty` verification guard passes
(issue `#5` closed, PR `#7` merged with a resolvable author and a
merge commit, PR linked to the issue). -/
def ghAllPass : GitHubOracle :=
  { parseGitHubUrl := fun u =>
      if u = "https://github.com/owner/repo/issues/5" then some ⟨"owner", "repo", 5⟩
      else if u = "https://github.com/owner/repo/pull/7" then some ⟨"owner", "repo", 7⟩
      else none
    isIssueClosed := fun _ _ _ => true
    getPullRequestDetails := fun _ _ _ => ⟨true, some "devuser", some "abc123"⟩
    isPRLinkedToIssue := fun _ _ _ _ => true }

/-- Like `ghAllPass` but GitHub reports no merge commit SHA
(`mergeCommitSha = null`). -/
def ghNoMergeSha : GitHubOracle :=
  { parseGitHubUrl := fun u =>
      if u = "https://github.com/owner/repo/issues/5" then some ⟨"owner", "repo", 5⟩
      else if u = "https://github.com/owner/repo/pull/7" then some ⟨"owner", "repo", 7⟩
      else none
    isIssueClosed := fun _ _ _ => true
    getPullRequestDetails := fun _ _ _ => ⟨true, some "devuser", none⟩
    isPRLinkedToIssue := fun _ _ _ _ => true }

/-- A `verifyAndPayBounty` environment in which the signer rejects
the approval attestation. -/
def payEnvRejected : PayEnv :=
  ⟨some ⟨false, none, some "User rejected the transaction"⟩, Except.ok ⟨true, none, some "t"⟩⟩

/-- A `verifyAndPayBounty` environment in which the approval
attestation succeeds (transaction `approve-tx-1`) but the escrow
release fails: the service answered 400 `Invalid amount`, which axios
surfaces as a rejection carrying that message. -/
def payEnvPartial : PayEnv :=
  ⟨some ⟨true, some "approve-tx-1", none⟩, Except.error "Invalid amount"⟩

/-- Configured server: escrow account and signing credential loaded. -/
def cfgOk : ServerConfig := ⟨some "escrowacct", some "5Factivekey", "secret-key"⟩

/-- Ledger environment: the escrow account holds 100.000 HIVE and a
broadcast would succeed as `txid-1`. -/
def envBalance100 : ServerEnv := ⟨Except.ok [⟨"100.000 HIVE", "0.000 HBD"⟩], Except.ok "txid-1"⟩

/-- A release request with `amount="-5"` (all required fields present). -/
def reqNegAmount : ReleaseRequest := ⟨some "alice", some "-5", none, some "b1", some "bob"⟩

/-- Environment for a creator holding 3.000 HIVE. -/
def createEnvPoor : CreateEnv :=
  ⟨"hivebounty", [⟨"10.000 HIVE"⟩], [⟨"3.000 HIVE"⟩], some ⟨true, some "tx2", none⟩,
   ⟨true, "ok", none⟩⟩

/-- Server with the escrow account configured but no usable signing
credential (`ACTIVE_KEY` absent or rejected at startup). -/
def cfgNoKey : ServerConfig := ⟨some "escrowacct", none, "secret-key"⟩

/-! ## Helper lemmas -/

/-- A failed `releaseEscrowFunds` result never carries a transaction
identifier: `txId` is set only on the success path. -/
theorem releaseEscrowFunds_failure_txId (o : Except String ReleaseHttpResponse)
    (h : (releaseEscrowFunds o).success = false) : (releaseEscrowFunds o).txId = none := by
  cases o with
  | ok r =>
    by_cases hs : r.success = true
    · simp [releaseEscrowFunds, hs] at h
    · simp [releaseEscrowFunds, hs]
  | error m => rfl

/-! ## Claim theorems -/

/-- C1: `claimBounty` evaluates its verification guards strictly in
the order URL-parse / same-repository, issue-closed, PR-merged,
PR-linked, short-circuits at the first failing guard with that
guard's specific rejection message (for an open issue, exactly
`The issue must be closed before claiming the bounty`), and performs
none of the later verification calls — the returned trace stops at
the failing guard.  (The PR-author check consumes the same
`getPullRequestDetails` response as the PR-merged guard and sits
between it and the linkage guard.) -/
theorem claimBounty_guard_order (gh : GitHubOracle) (k : Option KeychainResponse)
    (username ts bountyId githubLink pullRequestUrl : String) :
    ((gh.parseGitHubUrl githubLink = none ∨ gh.parseGitHubUrl pullRequestUrl = none) →
      claimBounty gh k username ts bountyId githubLink pullRequestUrl =
        (Except.ok ⟨false, "Invalid GitHub URLs", none⟩, []))
    ∧ (∀ ii pi : RepoRef, gh.parseGitHubUrl githubLink = some ii →
        gh.parseGitHubUrl pullRequestUrl = some pi →
        (ii.owner ≠ pi.owner ∨ ii.repo ≠ pi.repo) →
        claimBounty gh k username ts bountyId githubLink pullRequestUrl =
          (Except.ok ⟨false, "Pull request must be in the same repository as the issue", none⟩, []))
    ∧ (∀ ii pi : RepoRef, gh.parseGitHubUrl githubLink = some ii →
        gh.parseGitHubUrl pullRequestUrl = some pi →
        ii.owner = pi.owner → ii.repo = pi.repo →
        gh.isIssueClosed ii.owner ii.repo ii.number = false →
        claimBounty gh k username ts bountyId githubLink pullRequestUrl =
          (Except.ok ⟨false, "The issue must be closed before claiming the bounty", none⟩,
           [ClaimCall.isIssueClosedCall ii.owner ii.repo ii.number]))
    ∧ (∀ ii pi : RepoRef, gh.parseGitHubUrl githubLink = some ii →
        gh.parseGitHubUrl pullRequestUrl = some pi →
        ii.owner = pi.owner → ii.repo = pi.repo →
        gh.isIssueClosed ii.owner ii.repo ii.number = true →
        (gh.getPullRequestDetails pi.owner pi.repo pi.number).merged = false →
        claimBounty gh k username ts bountyId githubLink pullRequestUrl =
          (Except.ok ⟨false, "The pull request must be merged before claiming the bounty", none⟩,
           [ClaimCall.isIssueClosedCall ii.owner ii.repo ii.number,
            ClaimCall.getPullRequestDetailsCall pi.owner pi.repo pi.number]))
    ∧ (∀ (ii pi : RepoRef) (login : String), gh.parseGitHubUrl githubLink = some ii →
        gh.parseGitHubUrl pullRequestUrl = some pi →
        ii.owner = pi.owner → ii.repo = pi.repo →
        gh.isIssueClosed ii.owner ii.repo ii.number = true →
        (gh.getPullRequestDetails pi.owner pi.repo pi.number).merged = true →
        (gh.getPullRequestDetails pi.owner pi.repo pi.number).user = some login →
        gh.isPRLinkedToIssue ii.owner ii.repo pi.number ii.number = false →
        claimBounty gh k username ts bountyId githubLink pullRequestUrl =
          (Except.ok ⟨false, "The pull request must reference the issue it resolves", none⟩,
           [ClaimCall.isIssueClosedCall ii.owner ii.repo ii.number,
            ClaimCall.getPullRequestDetailsCall pi.owner pi.repo pi.number,
            ClaimCall.isPRLinkedToIssueCall ii.owner ii.repo pi.number ii.number])) := by
  refine ⟨?_, ?_, ?_, ?_, ?_⟩
  · rintro (h | h)
    · simp [claimBounty, h]
    · cases hgl : gh.parseGitHubUrl githubLink <;> simp [claimBounty, hgl, h]
  · intro ii pi h1 h2 hne
    have : ii.owner ≠ pi.owner ∨ ii.repo ≠ pi.repo := hne
    simp only [claimBounty, h1, h2]
    rw [if_pos this]
  · intro ii pi h1 h2 ho hr hc
    rw [ho, hr] at hc
    simp [claimBounty, h1, h2, ho, hr, hc]
  · intro ii pi h1 h2 ho hr hc hm
    rw [ho, hr] at hc
    simp [claimBounty, h1, h2, ho, hr, hc, hm]
  · intro ii pi login h1 h2 ho hr hc hm hu hl
    rw [ho, hr] at hc hl
    simp [claimBounty, h1, h2, ho, hr, hc, hm, hu, hl]

/-- Witness for C1: the end-to-end open-issue scenario — issue `#5`
in `owner/repo` is open, the claim's PR `#7` is merged and linked;
`claimBounty` rejects with exactly the issue-closed message after
calling only `isIssueClosed`. -/
theorem claimBounty_guard_order_witness :
    claimBounty ghOpenIssue (some ⟨true, some "tx1", none⟩) "solver1" "2024-01-01T00:00:00.000Z"
        "b1" "https://github.com/owner/repo/issues/5" "https://github.com/owner/repo/pull/7" =
      (Except.ok ⟨false, "The issue must be closed before claiming the bounty", none⟩,
       [ClaimCall.isIssueClosedCall "owner" "repo" 5]) := by
  have h := claimBounty_guard_order ghOpenIssue (some ⟨true, some "tx1", none⟩) "solver1"
      "2024-01-01T00:00:00.000Z" "b1" "https://github.com/owner/repo/issues/5"
      "https://github.com/owner/repo/pull/7"
  exact h.2.2.1 ⟨"owner", "repo", 5⟩ ⟨"owner", "repo", 7⟩ (by decide) (by decide) rfl rfl rfl

/-- C2: `verifyAndPayBounty` is two-phase — whenever any outbound
call happens at all, the approval attestation is requested first, and
when the approval attestation fails the phase-1 failure result is
returned unchanged and `releaseEscrowFunds` is never called (the
trace holds the approval request only). -/
theorem verifyAndPayBounty_two_phase (env : PayEnv)
    (username bountyId solver bountyAmount : String) :
    ((verifyAndPayBounty env username bountyId solver bountyAmount).snd ≠ [] →
      (verifyAndPayBounty env username bountyId solver bountyAmount).snd.head? =
        some (PayCall.requestCustomJsonApprove username bountyId solver bountyAmount))
    ∧ (∀ r : KeychainResponse, env.keychain = some r → r.success = false →
        verifyAndPayBounty env username bountyId solver bountyAmount =
          (⟨false, jsOrString r.error "Failed to record approval", none⟩,
           [PayCall.requestCustomJsonApprove username bountyId solver bountyAmount])) := by
  constructor
  · intro hne
    cases hk : env.keychain with
    | none => simp [verifyAndPayBounty, hk] at hne
    | some r =>
      by_cases hs : r.success = true
      · simp [verifyAndPayBounty, hk, hs]
      · simp [verifyAndPayBounty, hk, hs]
  · intro r hk hs
    simp [verifyAndPayBounty, hk, hs]

/-- Witness for C2: the signer rejects the approval; the rejection is
returned as-is and the escrow service is never contacted. -/
theorem verifyAndPayBounty_two_phase_witness :
    verifyAndPayBounty payEnvRejected "creator" "b1" "solver1" "30" =
      (⟨false, "User rejected the transaction", none⟩,
       [PayCall.requestCustomJsonApprove "creator" "b1" "solver1" "30"]) := by
  have h := (verifyAndPayBounty_two_phase payEnvRejected "creator" "b1" "solver1" "30").2
      ⟨false, none, some "User rejected the transaction"⟩ rfl rfl
  exact h.trans (by decide)

/-- Counterexample to C3: with the approval attested as
`approve-tx-1` and the escrow release failing with `Invalid amount`,
`verifyAndPayBounty` returns the bare escrow failure — `txId` is
`none` and the message does not report that the approval succeeded,
so the approval's transaction identifier is *not* included. -/
theorem verifyAndPayBounty_partial_drops_approval_txid :
    (verifyAndPayBounty payEnvPartial "creator" "b1" "solver1" "30").fst =
      ⟨false, "Invalid amount", none⟩ := by decide

/-- C3 (amended): when the approval attestation succeeds but the
escrow release fails, `verifyAndPayBounty` reports `success:false`,
returning the escrow layer's failure result unchanged — it does not
include the approval attestation's transaction identifier (the
result's `txId` is `none`), and both phases appear in the call
trace. -/
theorem verifyAndPayBounty_phase2_failure (env : PayEnv)
    (username bountyId solver bountyAmount : String) (r : KeychainResponse)
    (hk : env.keychain = some r) (hs : r.success = true)
    (hf : (releaseEscrowFunds env.escrowOutcome).success = false) :
    verifyAndPayBounty env username bountyId solver bountyAmount =
      (releaseEscrowFunds env.escrowOutcome,
       [PayCall.requestCustomJsonApprove username bountyId solver bountyAmount,
        PayCall.releaseEscrowFundsCall solver bountyAmount bountyId username
          ("Bounty payment for " ++ bountyId)])
    ∧ (verifyAndPayBounty env username bountyId solver bountyAmount).fst.txId = none := by
  have hmain : verifyAndPayBounty env username bountyId solver bountyAmount =
      (releaseEscrowFunds env.escrowOutcome,
       [PayCall.requestCustomJsonApprove username bountyId solver bountyAmount,
        PayCall.releaseEscrowFundsCall solver bountyAmount bountyId username
          ("Bounty payment for " ++ bountyId)]) := by
    simp [verifyAndPayBounty, hk, hs]
  exact ⟨hmain, by rw [hmain]; exact releaseEscrowFunds_failure_txId env.escrowOutcome hf⟩

/-- C4: a `POST /api/release` whose amount does not parse as a
positive decimal, or whose signing credential is missing, or whose
escrow balance is below the amount, fails with the precondition's
specific message (`Invalid amount` for a non-positive amount) and
broadcasts no transfer; a thrown upstream balance fetch is likewise
caught and answered as a 500 JSON response rather than rethrown.  In
every case the trace contains no `broadcastTransfer`. -/
theorem releaseFunds_precondition_failures (cfg : ServerConfig) (env : ServerEnv)
    (req : ReleaseRequest) :
    (∀ acctName : String,
      (jsTruthy req.«to» && jsTruthy req.amount && jsTruthy req.bountyId && jsTruthy req.requester) = true →
      cfg.escrowAccount = some acctName → cfg.activeKey = none →
      releaseHandler cfg env req =
        (⟨500, false, some "Private key not configured or invalid", none, none, none⟩, []))
    ∧ (∀ (acctName keyVal : String) (acct : EscrowAccount) (rest : List EscrowAccount),
      (jsTruthy req.«to» && jsTruthy req.amount && jsTruthy req.bountyId && jsTruthy req.requester) = true →
      cfg.escrowAccount = some acctName → cfg.activeKey = some keyVal →
      env.accounts = Except.ok (acct :: rest) →
      (∀ q : JsNum, jsParseFloat (req.amount.getD "") = some q → q.ble ⟨0, 0⟩ = true) →
      releaseHandler cfg env req =
        (⟨400, false, some "Invalid amount", none, none, none⟩, [LedgerCall.getAccounts]))
    ∧ (∀ (acctName keyVal : String) (acct : EscrowAccount) (rest : List EscrowAccount) (b q : JsNum),
      (jsTruthy req.«to» && jsTruthy req.amount && jsTruthy req.bountyId && jsTruthy req.requester) = true →
      cfg.escrowAccount = some acctName → cfg.activeKey = some keyVal →
      env.accounts = Except.ok (acct :: rest) →
      jsParseFloat acct.balance = some b →
      jsParseFloat (req.amount.getD "") = some q →
      q.ble ⟨0, 0⟩ = false → b.blt q = true →
      releaseHandler cfg env req =
        (⟨400, false, some (insufficientEscrowMessage b q), none, none, none⟩,
         [LedgerCall.getAccounts]))
    ∧ (∀ (acctName keyVal errMsg : String),
      (jsTruthy req.«to» && jsTruthy req.amount && jsTruthy req.bountyId && jsTruthy req.requester) = true →
      cfg.escrowAccount = some acctName → cfg.activeKey = some keyVal →
      env.accounts = Except.error errMsg →
      releaseHandler cfg env req =
        (⟨500, false, some errMsg, none, none, none⟩, [LedgerCall.getAccounts])) := by
  refine ⟨?_, ?_, ?_, ?_⟩
  · intro acctName hp hacc hkey
    simp [releaseHandler, hp, hacc, hkey]
  · intro acctName keyVal acct rest hp hacc hkey haccs hq
    have hdec : releaseDecision (jsParseFloat acct.balance) (jsParseFloat (req.amount.getD "")) =
        ReleaseDecision.invalidAmount := by
      cases hpq : jsParseFloat (req.amount.getD "") with
      | none => simp [releaseDecision]
      | some q => simp [releaseDecision, hq q hpq]
    simp [releaseHandler, hp, hacc, hkey, haccs, hdec]
  · intro acctName keyVal acct rest b q hp hacc hkey haccs hb hq hble hblt
    have hdec : releaseDecision (some b) (some q) = ReleaseDecision.insufficient := by
      simp [releaseDecision, hble, hblt]
    simp [releaseHandler, hp, hacc, hkey, haccs, hb, hq, hdec]
  · intro acctName keyVal errMsg hp hacc hkey haccs
    simp [releaseHandler, hp, hacc, hkey, haccs]

/-- Witness for C4: the end-to-end `amount="-5"` scenario — the
response is exactly `Invalid amount` and no transfer is broadcast. -/
theorem releaseFunds_precondition_failures_witness :
    releaseHandler cfgOk envBalance100 reqNegAmount =
      (⟨400, false, some "Invalid amount", none, none, none⟩, [LedgerCall.getAccounts]) := by
  refine (releaseFunds_precondition_failures cfgOk envBalance100 reqNegAmount).2.1
      "escrowacct" "5Factivekey" ⟨"100.000 HIVE", "0.000 HBD"⟩ [] (by decide) rfl rfl rfl ?_
  intro q hq
  have h5 : jsParseFloat (reqNegAmount.amount.getD "") = some ⟨-5, 0⟩ := by decide
  rw [h5] at hq
  cases hq
  decide

/-- C5: `createBounty` with a creator balance below the prize pool is
rejected with the insufficient-balance message naming both amounts,
and its call trace is empty — neither the create attestation
(`requestCustomJson`) nor the funding transfer is ever issued. -/
theorem createBounty_insufficient_balance (env : CreateEnv) (username : String)
    (prizePool : JsNum) (c : HiveAccount) (crest : List HiveAccount)
    (hc : env.contractAccounts = c :: crest)
    (a : HiveAccount) (arest : List HiveAccount) (ha : env.userAccounts = a :: arest)
    (u : JsNum) (hu : jsParseFloat a.balance = some u)
    (hlt : u.blt prizePool = true) :
    createBounty env username prizePool =
      (⟨false, insufficientBalanceMessage (some u) (some prizePool), none⟩, []) := by
  simp [createBounty, hc, ha, hu, jsLt, hlt]

/-- Witness for C5: creator balance 3 HIVE, prize pool 5 HIVE — the
rejection names both amounts and nothing is attested or transferred. -/
theorem createBounty_insufficient_balance_witness :
    createBounty createEnvPoor "creator1" ⟨5, 0⟩ =
      (⟨false, "Insufficient balance. You have 3 HIVE but the bounty requires 5 HIVE", none⟩,
       []) := by
  have h := createBounty_insufficient_balance createEnvPoor "creator1" ⟨5, 0⟩
      ⟨"10.000 HIVE"⟩ [] rfl ⟨"3.000 HIVE"⟩ [] rfl ⟨3000, 3⟩ (by decide) (by decide)
  exact h.trans (by decide)

/-- C6 (code bug): with no signing capability in the environment
(`window.hive_keychain` undefined) and every verification guard
passing, `claimBounty` does *not* return a `success:false` result —
the returned promise rejects with the executor's `TypeError`
(`Except.error`), because the promise is returned without `await` and
so escapes the function's `try/catch`.  `createBounty`, by contrast,
guards the same condition and returns the first-class
`Hive Keychain extension not found` failure. -/
theorem claimBounty_missing_keychain_unhandled_fault :
    (claimBounty ghAllPass none "solver1" "2024-01-01T00:00:00.000Z" "b1"
        "https://github.com/owner/repo/issues/5" "https://github.com/owner/repo/pull/7").fst =
      Except.error "TypeError: window.hive_keychain is undefined"
    ∧ (createBounty ⟨"hivebounty", [⟨"10.000 HIVE"⟩], [⟨"100.000 HIVE"⟩], none, ⟨true, "ok", none⟩⟩
        "creator1" ⟨5, 0⟩).fst = ⟨false, "Hive Keychain extension not found", none⟩ := by
  constructor
  · rfl
  · rfl

/-- C7 (amended): with the signing credential absent, no
`POST /api/release` ever broadcasts a transfer and every release
response has `success:false`; a request that passes authentication,
the required-parameter check and the escrow-account check is answered
exactly `Private key not configured or invalid`; and `GET
/api/balance` neither reads the credential (its result is invariant
under changing it) nor fails because of it — with a configured,
reachable account it returns the balances. -/
theorem release_disabled_balance_operable (cfg : ServerConfig) (env : ServerEnv)
    (hkey : cfg.activeKey = none) :
    (∀ (headerKey : Option String) (req : ReleaseRequest),
      (postReleaseRoute cfg env headerKey req).fst.success = false ∧
      LedgerCall.broadcastTransfer ∉ (postReleaseRoute cfg env headerKey req).snd)
    ∧ (∀ (headerKey : Option String) (req : ReleaseRequest) (acctName : String),
      cfg.escrowAccount = some acctName → verifyApiKey cfg.apiKey headerKey = true →
      (jsTruthy req.«to» && jsTruthy req.amount && jsTruthy req.bountyId && jsTruthy req.requester) = true →
      postReleaseRoute cfg env headerKey req =
        (⟨500, false, some "Private key not configured or invalid", none, none, none⟩, []))
    ∧ (∀ (headerKey : Option String) (x : Option String),
      getBalanceRoute cfg env headerKey = getBalanceRoute { cfg with activeKey := x } env headerKey)
    ∧ (∀ (headerKey : Option String) (acct : EscrowAccount) (rest : List EscrowAccount)
        (acctName : String),
      cfg.escrowAccount = some acctName → verifyApiKey cfg.apiKey headerKey = true →
      env.accounts = Except.ok (acct :: rest) →
      getBalanceRoute cfg env headerKey =
        (⟨200, true, none, some acct.balance, some acct.hbd_balance, none⟩,
         [LedgerCall.getAccounts])) := by
  refine ⟨?_, ?_, ?_, ?_⟩
  · intro headerKey req
    by_cases hv : verifyApiKey cfg.apiKey headerKey = true
    · by_cases hp : (jsTruthy req.«to» && jsTruthy req.amount && jsTruthy req.bountyId && jsTruthy req.requester) = true
      · cases hacc : cfg.escrowAccount with
        | none => simp [postReleaseRoute, hv, releaseHandler, hp, hacc]
        | some a => simp [postReleaseRoute, hv, releaseHandler, hp, hacc, hkey]
      · simp [postReleaseRoute, hv, releaseHandler, hp]
    · simp [postReleaseRoute, hv, unauthorizedResponse]
  · intro headerKey req acctName hacc hv hp
    simp [postReleaseRoute, hv, releaseHandler, hp, hacc, hkey]
  · intro headerKey x
    rfl
  · intro headerKey acct rest acctName hacc hv haccs
    simp [getBalanceRoute, hv, balanceHandler, hacc, haccs]

/-- Counterexample to C7 as stated: with the credential absent, an
authenticated release request missing its `to` field is answered
`Missing required parameters` — not the credential-not-configured
message, so not *every* release request gets that message. -/
theorem release_missing_params_not_credential_message :
    (postReleaseRoute cfgNoKey envBalance100 (some "secret-key")
        ⟨none, some "5", none, some "b1", some "bob"⟩).fst.message =
      some "Missing required parameters"
    ∧ (postReleaseRoute cfgNoKey envBalance100 (some "secret-key")
        ⟨none, some "5", none, some "b1", some "bob"⟩).fst.message ≠
      some "Private key not configured or invalid" := by
  constructor
  · rfl
  · decide

/-- Witness for C7's amended theorem: same credential-less server —
a complete authenticated release request gets exactly the
credential message with no ledger interaction, while the balance
endpoint returns the account's balances. -/
theorem release_disabled_balance_operable_witness :
    postReleaseRoute cfgNoKey envBalance100 (some "secret-key")
        ⟨some "alice", some "5", none, some "b1", some "bob"⟩ =
      (⟨500, false, some "Private key not configured or invalid", none, none, none⟩, [])
    ∧ getBalanceRoute cfgNoKey envBalance100 (some "secret-key") =
      (⟨200, true, none, some "100.000 HIVE", some "0.000 HBD", none⟩,
       [LedgerCall.getAccounts]) := by
  have h := release_disabled_balance_operable cfgNoKey envBalance100 rfl
  exact ⟨h.2.1 (some "secret-key") ⟨some "alice", some "5", none, some "b1", some "bob"⟩
          "escrowacct" rfl (by decide) (by decide),
         h.2.2.2 (some "secret-key") ⟨"100.000 HIVE", "0.000 HBD"⟩ [] "escrowacct" rfl
          (by decide) rfl⟩

/-- C8: a request to either endpoint whose `X-API-Key` header is
absent or differs from the configured secret is answered with the
401 `Unauthorized` response, and neither the balance inquiry nor any
transfer logic runs — the ledger-call trace is empty. -/
theorem unauthorized_requests_rejected (cfg : ServerConfig) (env : ServerEnv)
    (headerKey : Option String) (req : ReleaseRequest)
    (h : headerKey = none ∨ ∀ s : String, headerKey = some s → s ≠ cfg.apiKey) :
    getBalanceRoute cfg env headerKey = (unauthorizedResponse, []) ∧
    postReleaseRoute cfg env headerKey req = (unauthorizedResponse, []) := by
  have hv : verifyApiKey cfg.apiKey headerKey = false := by
    cases headerKey with
    | none => rfl
    | some s =>
      rcases h with h | h
      · exact absurd h (by simp)
      · have hs : s ≠ cfg.apiKey := h s rfl
        simp [verifyApiKey, hs]
  simp [getBalanceRoute, postReleaseRoute, hv]

/-- Witness for C8: a request with no `X-API-Key` header at all. -/
theorem unauthorized_requests_rejected_witness :
    getBalanceRoute cfgOk envBalance100 none = (unauthorizedResponse, []) ∧
    postReleaseRoute cfgOk envBalance100 none reqNegAmount = (unauthorizedResponse, []) :=
  unauthorized_requests_rejected cfgOk envBalance100 none reqNegAmount (Or.inl rfl)

/-- C9 (code bug): the release handler's read-check-act is not
serialized.  Interleaving two concurrent requests of 60 HIVE each
against a 100 HIVE escrow account as read₁, read₂, act₁, act₂ — an
interleaving nothing in the handler prevents, since the balance
snapshot and the broadcast it guards are separate awaits with no
lock between them — lets *both* requests pass the balance check
against the stale 100 snapshot and both broadcast, overdrawing the
account, instead of the claimed exactly-one-success outcome. -/
theorem releaseFunds_race_both_succeed :
    ((raceRun ⟨60, 0⟩ ⟨60, 0⟩ ⟨⟨100, 0⟩, none, none, none, none⟩
        [RaceEvent.read1, RaceEvent.read2, RaceEvent.act1, RaceEvent.act2]).res1 = some true)
    ∧ ((raceRun ⟨60, 0⟩ ⟨60, 0⟩ ⟨⟨100, 0⟩, none, none, none, none⟩
        [RaceEvent.read1, RaceEvent.read2, RaceEvent.act1, RaceEvent.act2]).res2 = some true)
    ∧ ((raceRun ⟨60, 0⟩ ⟨60, 0⟩ ⟨⟨100, 0⟩, none, none, none, none⟩
        [RaceEvent.read1, RaceEvent.read2, RaceEvent.act1, RaceEvent.act2]).ledger.mant < 0) := by
  refine ⟨rfl, rfl, ?_⟩
  decide

/-- C10: when every guard passes but GitHub reports no merge commit
(`mergeCommitSha = null`), the claim record submitted for attestation
carries `mergeCommitHash = ""` — the absent value is silently
defaulted by `prDetails.mergeCommitSha || ''`. -/
theorem claimBounty_null_merge_sha_defaults_empty (gh : GitHubOracle)
    (k : Option KeychainResponse) (username ts bountyId githubLink pullRequestUrl : String)
    (ii pi : RepoRef) (login : String) (r : KeychainResponse)
    (h1 : gh.parseGitHubUrl githubLink = some ii)
    (h2 : gh.parseGitHubUrl pullRequestUrl = some pi)
    (ho : ii.owner = pi.owner) (hr : ii.repo = pi.repo)
    (hc : gh.isIssueClosed ii.owner ii.repo ii.number = true)
    (hm : (gh.getPullRequestDetails pi.owner pi.repo pi.number).merged = true)
    (hu : (gh.getPullRequestDetails pi.owner pi.repo pi.number).user = some login)
    (hsha : (gh.getPullRequestDetails pi.owner pi.repo pi.number).mergeCommitSha = none)
    (hl : gh.isPRLinkedToIssue ii.owner ii.repo pi.number ii.number = true)
    (hk : k = some r) :
    (claimBounty gh k username ts bountyId githubLink pullRequestUrl).snd =
      [ClaimCall.isIssueClosedCall ii.owner ii.repo ii.number,
       ClaimCall.getPullRequestDetailsCall pi.owner pi.repo pi.number,
       ClaimCall.isPRLinkedToIssueCall ii.owner ii.repo pi.number ii.number,
       ClaimCall.requestCustomJsonClaim ⟨bountyId, username, pullRequestUrl, "", ts, login⟩] := by
  rw [ho, hr] at hc hl
  by_cases hrs : r.success = true <;>
    simp [claimBounty, h1, h2, ho, hr, hc, hm, hu, hsha, hl, hk, hrs, jsOrString]

/-- Witness for C10: all guards pass, GitHub reports
`mergeCommitSha = null`, and the attested claim record's
`mergeCommitHash` is the empty string. -/
theorem claimBounty_null_merge_sha_defaults_empty_witness :
    (claimBounty ghNoMergeSha (some ⟨true, some "tx3", none⟩) "solver1"
        "2024-01-01T00:00:00.000Z" "b1" "https://github.com/owner/repo/issues/5"
        "https://github.com/owner/repo/pull/7").snd =
      [ClaimCall.isIssueClosedCall "owner" "repo" 5,
       ClaimCall.getPullRequestDetailsCall "owner" "repo" 7,
       ClaimCall.isPRLinkedToIssueCall "owner" "repo" 7 5,
       ClaimCall.requestCustomJsonClaim
         ⟨"b1", "solver1", "https://github.com/owner/repo/pull/7", "",
          "2024-01-01T00:00:00.000Z", "devuser"⟩] := by
  exact claimBounty_null_merge_sha_defaults_empty ghNoMergeSha (some ⟨true, some "tx3", none⟩)
      "solver1" "2024-01-01T00:00:00.000Z" "b1" "https://github.com/owner/repo/issues/5"
      "https://github.com/owner/repo/pull/7" ⟨"owner", "repo", 5⟩ ⟨"owner", "repo", 7⟩
      "devuser" ⟨true, some "tx3", none⟩ (by decide) (by decide) rfl rfl rfl rfl rfl rfl rfl rfl

/-- Witness for C3's amended theorem, at the concrete
attested-but-unpaid environment. -/
theorem verifyAndPayBounty_phase2_failure_witness :
    verifyAndPayBounty payEnvPartial "creator" "b1" "solver1" "30" =
      (⟨false, "Invalid amount", none⟩,
       [PayCall.requestCustomJsonApprove "creator" "b1" "solver1" "30",
        PayCall.releaseEscrowFundsCall "solver1" "30" "b1" "creator" "Bounty payment for b1"]) := by
  have h := verifyAndPayBounty_phase2_failure payEnvPartial "creator" "b1" "solver1" "30"
      ⟨true, some "approve-tx-1", none⟩ rfl rfl (by decide)
  exact h.1.trans (by decide)
